import Mathlib

/-!
Verification of the garm CloudStack provider core against its source.

The development shallowly embeds the Go code of the repository:

* `config/config.go`   — UUID detection (`isUUID`) and `resolveNames`;
* `internal/spec`      — `extraSpecs`, `RunnerSpec.MergeExtraSpecs`,
                         `maybeCompressUserdata` / `ComposeUserData`;
* `internal/util`      — `CloudStackInstanceToParamsInstance`,
                         `IsCloudStackNotFoundErr`;
* `internal/client`    — `FindOneInstance`, `StartInstance`,
                         `StopInstance`, `DestroyInstance`;
* `provider/provider.go` — `GetInstance`.

Go errors are modelled as values carrying their message together with the
two sentinel-membership facts the code inspects via `errors.Is`:
membership of `garmErrors.ErrNotFound` and of `cs.AsyncTimeoutErr` in the
wrap chain.  `fmt.Errorf("...: %w", err)` preserves both, which the
`wrapErr` model mirrors.  Remote CloudStack API calls are modelled as
function-valued records (an oracle for the platform's responses).
-/

/-- Model of a non-nil Go `error` value: its message, plus whether
`errors.Is(err, garmErrors.ErrNotFound)` and
`errors.Is(err, cs.AsyncTimeoutErr)` hold for it. -/
structure GoErr where
  msg : String
  notFound : Bool
  asyncTimeout : Bool
  deriving Repr, DecidableEq

/-- `fmt.Errorf(ctx + ": %w", e)`: prepends context, keeps the wrap chain. -/
def wrapErr (ctx : String) (e : GoErr) : GoErr :=
  { msg := ctx ++ ": " ++ e.msg, notFound := e.notFound, asyncTimeout := e.asyncTimeout }

/-- `fmt.Errorf(msg + ": %w", garmErrors.ErrNotFound)`. -/
def notFoundErr (msg : String) : GoErr :=
  { msg := msg, notFound := true, asyncTimeout := false }

/-- `fmt.Errorf(msg)`: a plain error wrapping no sentinel. -/
def plainErr (msg : String) : GoErr :=
  { msg := msg, notFound := false, asyncTimeout := false }

/-! ### Substring search (Go `strings.Contains`) -/

/-- `containsSub hay needle` models Go `strings.Contains` on rune lists:
true iff `needle` occurs contiguously inside `hay`. -/
def containsSub : List Char → List Char → Bool
  | [], needle => needle.isEmpty
  | c :: t, needle => List.isPrefixOf needle (c :: t) || containsSub t needle

/-- Go `strings.Contains(hay, needle)`. -/
def strContains (hay needle : String) : Bool :=
  containsSub hay.data needle.data

/-- Go `strings.ToLower`, embedded character-wise.  `Char.toLower` is the
ASCII lowering; every comparison the code performs on a lowered string is
against an ASCII literal. -/
def strToLower (s : String) : String := ⟨s.data.map Char.toLower⟩

/-- Go `strings.TrimSpace`, embedded character-wise: drop leading and
trailing whitespace. -/
def strTrim (s : String) : String :=
  ⟨(((s.data.dropWhile Char.isWhitespace).reverse.dropWhile Char.isWhitespace)).reverse⟩

/-! ### UUID detection (`config/config.go`, `isUUID`)

The source compiles the anchored regex
`^[0-9a-fA-F]{8}-[0-9a-fA-F]{4}-[0-9a-fA-F]{4}-[0-9a-fA-F]{4}-[0-9a-fA-F]{12}$`
and `isUUID s` is `MatchString`.  The regex is a plain anchored
concatenation of fixed-width character-class runs, embedded here as the
segment list `uuidSegs` consumed left to right by `matchSegs`. -/

/-- The regex character class `[0-9a-fA-F]`. -/
def hexDigit (c : Char) : Bool :=
  ('0' ≤ c && c ≤ '9') || ('a' ≤ c && c ≤ 'f') || ('A' ≤ c && c ≤ 'F')

/-- The literal `-` of the regex. -/
def dashChar (c : Char) : Bool := c == '-'

/-- Anchored matching of a list of `(width, class)` runs against a string:
each run consumes exactly `width` characters, all in the class, and the
whole string must be consumed. -/
def matchSegs : List (Nat × (Char → Bool)) → List Char → Bool
  | [], cs => cs.isEmpty
  | (n, p) :: rest, cs =>
    decide (n ≤ cs.length) && (cs.take n).all p && matchSegs rest (cs.drop n)

/-- Total width of a run list. -/
def segLen : List (Nat × (Char → Bool)) → Nat
  | [] => 0
  | (n, _) :: rest => n + segLen rest

/-- The class governing position `i` of a run list. -/
def segPred : List (Nat × (Char → Bool)) → Nat → Char → Bool
  | [], _, _ => false
  | (n, p) :: rest, i, c => if i < n then p c else segPred rest (i - n) c

/-- The segment shape of the source's UUID regex: 8-1-4-1-4-1-4-1-12. -/
def uuidSegs : List (Nat × (Char → Bool)) :=
  [(8, hexDigit), (1, dashChar), (4, hexDigit), (1, dashChar), (4, hexDigit),
   (1, dashChar), (4, hexDigit), (1, dashChar), (12, hexDigit)]

/-- `isUUID` from `config/config.go`: anchored match of the UUID regex. -/
def isUUID (s : String) : Bool :=
  matchSegs uuidSegs s.data

/-! ### Extra specs and merge (`internal/spec`, `MergeExtraSpecs`)

Go's `extraSpecs` uses pointer fields (`*string`, `*bool`) so that an
absent JSON field is distinguishable from a present empty one; pointers
are embedded as `Option`. -/

/-- `extraSpecs` from `internal/spec`: the per-request override document. -/
structure ExtraSpecs where
  ZoneID : Option String
  ServiceOfferingID : Option String
  TemplateID : Option String
  NetworkIDs : List String
  SSHKeyName : Option String
  ProjectID : Option String
  DisableUpdates : Option Bool
  EnableBootDebug : Option Bool
  ExtraPackages : List String
  deriving Repr, DecidableEq

/-- The merge-relevant fields of `RunnerSpec` from `internal/spec`. -/
structure RunnerSpec where
  ZoneID : String
  ServiceOfferingID : String
  TemplateID : String
  NetworkIDs : List String
  SSHKeyName : String
  ProjectID : String
  DisableUpdates : Bool
  EnableBootDebug : Bool
  ExtraPackages : List String
  deriving Repr, DecidableEq

/-- `RunnerSpec.MergeExtraSpecs`: each Go statement
`if extra.F != nil && *extra.F != "" { r.F = *extra.F }` (strings) or
`if extra.F != nil { r.F = *extra.F }` (booleans) assigns one field and
reads only `extra`, so the sequential assignments are rendered
field-by-field. -/
def MergeExtraSpecs (r : RunnerSpec) (extra : ExtraSpecs) : RunnerSpec where
  ZoneID := match extra.ZoneID with
    | some v => if v ≠ "" then v else r.ZoneID
    | none => r.ZoneID
  ServiceOfferingID := match extra.ServiceOfferingID with
    | some v => if v ≠ "" then v else r.ServiceOfferingID
    | none => r.ServiceOfferingID
  TemplateID := match extra.TemplateID with
    | some v => if v ≠ "" then v else r.TemplateID
    | none => r.TemplateID
  NetworkIDs := if extra.NetworkIDs.length > 0 then extra.NetworkIDs else r.NetworkIDs
  SSHKeyName := match extra.SSHKeyName with
    | some v => if v ≠ "" then v else r.SSHKeyName
    | none => r.SSHKeyName
  ProjectID := match extra.ProjectID with
    | some v => if v ≠ "" then v else r.ProjectID
    | none => r.ProjectID
  DisableUpdates := match extra.DisableUpdates with
    | some b => b
    | none => r.DisableUpdates
  EnableBootDebug := match extra.EnableBootDebug with
    | some b => b
    | none => r.EnableBootDebug
  ExtraPackages := r.ExtraPackages

/-! ### Base64 and the userdata pipeline (`internal/spec`,
`ComposeUserData` / `maybeCompressUserdata`)

Bytes are `Nat` values `< 256`.  `b64encodeBytes` is Go's
`base64.StdEncoding.EncodeToString` (RFC 4648 with `=` padding);
`b64decodeChars` is the matching standard decoder. -/

/-- The RFC 4648 standard alphabet used by `base64.StdEncoding`. -/
def b64alphabet : List Char :=
  "ABCDEFGHIJKLMNOPQRSTUVWXYZabcdefghijklmnopqrstuvwxyz0123456789+/".data

/-- Character for a sextet value (only used for values `< 64`). -/
def b64char (n : Nat) : Char := b64alphabet.getD n '?'

/-- Sextet value of an alphabet character. -/
def b64value (c : Char) : Nat := b64alphabet.indexOf c

/-- `base64.StdEncoding.EncodeToString`: groups of three bytes become four
alphabet characters; a trailing group of two or one byte is padded with
`=` or `==`. -/
def b64encodeBytes : List Nat → List Char
  | a :: b :: c :: rest =>
    b64char (a / 4) :: b64char (a % 4 * 16 + b / 16) :: b64char (b % 16 * 4 + c / 64) ::
      b64char (c % 64) :: b64encodeBytes rest
  | [a, b] => [b64char (a / 4), b64char (a % 4 * 16 + b / 16), b64char (b % 16 * 4), '=']
  | [a] => [b64char (a / 4), b64char (a % 4 * 16), '=', '=']
  | [] => []

/-- Modelled from the spec: the standard base64 decoder
(`base64.StdEncoding.DecodeString`, an external collaborator) used to
state the round-trip property of the boot payload. -/
def b64decodeChars : List Char → List Nat
  | w :: x :: y :: z :: rest =>
    if z = '=' then
      if y = '=' then [b64value w * 4 + b64value x / 16]
      else [b64value w * 4 + b64value x / 16, b64value x % 16 * 16 + b64value y / 4]
    else
      (b64value w * 4 + b64value x / 16) ::
        (b64value x % 16 * 16 + b64value y / 4) ::
        (b64value y % 4 * 64 + b64value z) :: b64decodeChars rest
  | _ => []

/-- Modelled from the spec: Go's `compress/gzip` stream writer and the
single-entry `archive/zip` writer whose entry is named `udata` are
external collaborators (stdlib); they are embedded as opaque byte-stream
encoders, with their decoders' round-trip contract taken as a hypothesis
where a theorem needs it. -/
structure CompressionLib where
  gzipCompress : List Nat → List Nat
  zipCompressUdata : List Nat → List Nat

/-- `maybeCompressUserdata` from `internal/spec`: payloads under
`1<<14 = 16384` bytes pass through; larger ones are zip-compressed for
`params.Windows` ("windows") and gzip-compressed for every other target
OS. -/
def maybeCompressUserdata (lib : CompressionLib) (udata : List Nat)
    (targetOS : String) : List Nat :=
  if udata.length < 16384 then udata
  else if targetOS = "windows" then lib.zipCompressUdata udata
  else lib.gzipCompress udata

/-- The tail of `ComposeUserData` acting on the rendered boot payload:
after `cloudconfig.GetCloudConfig` (and the `<powershell>` wrapping on
Windows) has produced the payload bytes, the function conditionally
compresses them and base64-encodes the result. -/
def composeRenderedUserData (lib : CompressionLib) (udata : List Nat)
    (targetOS : String) : List Char :=
  b64encodeBytes (maybeCompressUserdata lib udata targetOS)

/-! ### Canonical instance model (`internal/util`) -/

/-- `params.ProviderInstance`: garm's canonical instance record.  The
status values are garm's string constants `"running"`, `"stopped"`,
`"unknown"`; the Go zero value of the record has all fields `""`. -/
structure ProviderInstance where
  ProviderID : String
  Name : String
  OSType : String
  OSArch : String
  Status : String
  deriving Repr, DecidableEq

/-- `params.ProviderInstance{}` — the Go zero value. -/
def emptyProviderInstance : ProviderInstance :=
  { ProviderID := "", Name := "", OSType := "", OSArch := "", Status := "" }

/-- The fields of the SDK's `cs.VirtualMachine` record read by the code. -/
structure VirtualMachine where
  Id : String
  Displayname : String
  State : String
  Tags : List (String × String)
  deriving Repr, DecidableEq

/-- One iteration of the tag loop in `CloudStackInstanceToParamsInstance`. -/
def applyTag (inst : ProviderInstance) (tag : String × String) : ProviderInstance :=
  if tag.1 = "Name" then
    (if inst.Name = "" then { inst with Name := tag.2 } else inst)
  else if tag.1 = "OSType" then { inst with OSType := tag.2 }
  else if tag.1 = "OSArch" then { inst with OSArch := tag.2 }
  else inst

/-- `CloudStackInstanceToParamsInstance` from `internal/util/util.go`
(the Go nil-pointer guard has no counterpart on a value argument). -/
def CloudStackInstanceToParamsInstance (vm : VirtualMachine) :
    Except GoErr ProviderInstance :=
  if vm.Id = "" then .error (plainErr "virtual machine has empty id")
  else
    let inst0 := { emptyProviderInstance with ProviderID := vm.Id }
    let inst1 := if vm.Displayname ≠ "" then { inst0 with Name := vm.Displayname } else inst0
    let inst2 := vm.Tags.foldl applyTag inst1
    let s := strToLower vm.State
    let status :=
      if s = "running" ∨ s = "starting" ∨ s = "migrating" ∨ s = "restoring" ∨ s = "stopping"
      then "running"
      else if s = "stopped" ∨ s = "shutdown" ∨ s = "destroyed" ∨ s = "expunging"
      then "stopped"
      else "unknown"
    .ok { inst2 with Status := status }

/-- The spec's §4.4 state table, written from the spec's words (the
refinement target for the state-classification claim): a case-insensitive
function of the raw platform state. -/
def statusSpecTable (raw : String) : String :=
  if strToLower raw ∈ ["running", "starting", "migrating", "restoring", "stopping"]
  then "running"
  else if strToLower raw ∈ ["stopped", "shutdown", "destroyed", "expunging"]
  then "stopped"
  else "unknown"

/-- `IsCloudStackNotFoundErr` from `internal/util/util.go`; `none` is the
Go `nil` error. -/
def IsCloudStackNotFoundErr : Option GoErr → Bool
  | none => false
  | some e =>
    if e.asyncTimeout then false
    else
      strContains (strToLower e.msg) "no match found for" ||
        strContains (strToLower e.msg) "entity does not exist"

/-! ### Instance lifecycle (`internal/client/cloudstack.go` and
`provider/provider.go`)

The CloudStack remote API is an oracle: a record of response functions.
`listById` is `ListVirtualMachines` with `SetId` (and project scoping);
`listByName` is `ListVirtualMachines` with `SetName`, `SetListall` and —
when a non-empty controller ID is supplied — the `GARM_CONTROLLER_ID`
tag filter (`none` means no tag filter was applied). -/

/-- Oracle for the remote VM operations used by `CloudStackCli`. -/
structure CsApi where
  listById : String → Except GoErr (List VirtualMachine)
  listByName : String → Option String → Except GoErr (List VirtualMachine)
  startVM : String → Except GoErr Unit
  stopVM : String → Bool → Except GoErr Unit
  destroyVM : String → Except GoErr Unit

/-- Modelled from the spec: the SDK's `cs.IsID` opaque-identifier check
(§4.1 `isIdentifier`) — the same canonical UUID shape as `isUUID`. -/
def csIsID (s : String) : Bool := isUUID s

/-- `FindOneInstance` from `internal/client/cloudstack.go`: by ID when the
identifier is an opaque ID, otherwise by name with the optional
controller-tag filter; `resp.Count` is the length of the returned list. -/
def FindOneInstance (api : CsApi) (controllerID identifier : String) :
    Except GoErr VirtualMachine :=
  if strTrim identifier = "" then .error (plainErr "empty identifier")
  else if csIsID identifier then
    match api.listById identifier with
    | .error e => .error (wrapErr ("failed to get instance " ++ identifier) e)
    | .ok [] => .error (notFoundErr ("no such instance " ++ identifier))
    | .ok (vm :: _) => .ok vm
  else
    match api.listByName identifier (if controllerID = "" then none else some controllerID) with
    | .error e => .error (wrapErr "failed to list instances" e)
    | .ok [] => .error (notFoundErr ("no such instance " ++ identifier))
    | .ok [vm] => .ok vm
    | .ok (_ :: _ :: _) =>
      .error (plainErr ("found more than one instance with name " ++ identifier))

/-- `StartInstance` from `internal/client/cloudstack.go`. -/
def StartInstance (api : CsApi) (identifier : String) : Except GoErr Unit :=
  match FindOneInstance api "" identifier with
  | .error e => .error e
  | .ok vm =>
    match api.startVM vm.Id with
    | .error e => .error (wrapErr "failed to start instance" e)
    | .ok _ => .ok ()

/-- `StopInstance` from `internal/client/cloudstack.go`. -/
def StopInstance (api : CsApi) (identifier : String) (force : Bool) : Except GoErr Unit :=
  match FindOneInstance api "" identifier with
  | .error e => if e.notFound then .ok () else .error e
  | .ok vm =>
    match api.stopVM vm.Id force with
    | .error e =>
      if IsCloudStackNotFoundErr (some e) then .ok ()
      else .error (wrapErr "failed to stop instance" e)
    | .ok _ => .ok ()

/-- `DestroyInstance` from `internal/client/cloudstack.go`. -/
def DestroyInstance (api : CsApi) (identifier : String) : Except GoErr Unit :=
  match FindOneInstance api "" identifier with
  | .error e => if e.notFound then .ok () else .error e
  | .ok vm =>
    match api.destroyVM vm.Id with
    | .error e =>
      if IsCloudStackNotFoundErr (some e) then .ok ()
      else .error (wrapErr "failed to destroy instance" e)
    | .ok _ => .ok ()

/-- `GetInstance` from `provider/provider.go`. -/
def GetInstance (api : CsApi) (controllerID identifier : String) :
    Except GoErr ProviderInstance :=
  match FindOneInstance api controllerID identifier with
  | .error e =>
    if e.notFound then .ok emptyProviderInstance
    else .error (wrapErr "failed to get VM details" e)
  | .ok vm =>
    match CloudStackInstanceToParamsInstance vm with
    | .error e => .error (wrapErr "failed to convert instance" e)
    | .ok inst => .ok inst

/-! ### Name resolution (`config/config.go`, `resolveNames`) -/

/-- A CloudStack resource as returned by the lookup APIs (only the `Id`
field is read). -/
structure CsResource where
  Id : String
  deriving Repr, DecidableEq

/-- Oracle for the by-name lookup operations used by `resolveNames`:
`GetZoneByName`, `GetServiceOfferingByName`, `ListProjects` (by name,
listall) and `ListTemplates` (by name, zone ID, optional project ID). -/
structure ResolveApi where
  getZoneByName : String → Except GoErr CsResource
  getServiceOfferingByName : String → Except GoErr CsResource
  listProjects : String → Except GoErr (List CsResource)
  listTemplates : String → String → Option String → Except GoErr (List CsResource)

/-- The four resolvable fields of `Config` (`config/config.go`). -/
structure CsConfig where
  Zone : String
  ServiceOffering : String
  Template : String
  Project : String
  deriving Repr, DecidableEq

/-- `resolvedIDs` from `config/config.go`. -/
structure ResolvedIDs where
  ZoneID : String
  ServiceOfferingID : String
  TemplateID : String
  ProjectID : String
  deriving Repr, DecidableEq

/-- `resolveNames` from `config/config.go`: zone, then service offering,
then project (only when configured), then template; each value that is
already a UUID is used directly; `resp.Count` is the length of the
returned list.  For templates, multiple matches resolve to the first. -/
def resolveNames (api : ResolveApi) (c : CsConfig) : Except GoErr ResolvedIDs := do
  let zoneID ←
    if isUUID c.Zone then pure c.Zone
    else match api.getZoneByName c.Zone with
      | .error e => Except.error (wrapErr ("failed to resolve zone \"" ++ c.Zone ++ "\"") e)
      | .ok z => pure z.Id
  let serviceOfferingID ←
    if isUUID c.ServiceOffering then pure c.ServiceOffering
    else match api.getServiceOfferingByName c.ServiceOffering with
      | .error e =>
        Except.error (wrapErr ("failed to resolve service_offering \"" ++ c.ServiceOffering ++ "\"") e)
      | .ok so => pure so.Id
  let projectID ←
    if c.Project = "" then pure ""
    else if isUUID c.Project then pure c.Project
    else match api.listProjects c.Project with
      | .error e =>
        Except.error (wrapErr ("failed to resolve project \"" ++ c.Project ++ "\"") e)
      | .ok [] => Except.error (plainErr ("project \"" ++ c.Project ++ "\" not found"))
      | .ok [p] => pure p.Id
      | .ok (_ :: _ :: _) =>
        Except.error (plainErr ("multiple projects found matching \"" ++ c.Project ++ "\""))
  let templateID ←
    if isUUID c.Template then pure c.Template
    else match api.listTemplates c.Template zoneID (if projectID = "" then none else some projectID) with
      | .error e =>
        Except.error (wrapErr ("failed to resolve template \"" ++ c.Template ++ "\"") e)
      | .ok [] => Except.error (plainErr ("template \"" ++ c.Template ++ "\" not found"))
      | .ok (t :: _) => pure t.Id
  pure ⟨zoneID, serviceOfferingID, templateID, projectID⟩

/-! ## Theorems -/

theorem isPrefixOf_eq_true_iff {l₁ l₂ : List Char} :
    List.isPrefixOf l₁ l₂ = true ↔ ∃ t, l₁ ++ t = l₂ := by
  induction l₁ generalizing l₂ with
  | nil => simp [List.isPrefixOf]
  | cons a as ih =>
    cases l₂ with
    | nil => simp [List.isPrefixOf]
    | cons b bs =>
      simp only [List.isPrefixOf, Bool.and_eq_true, beq_iff_eq, ih, List.cons_append,
        List.cons.injEq]
      constructor
      · rintro ⟨rfl, t, rfl⟩; exact ⟨t, rfl, rfl⟩
      · rintro ⟨t, rfl, rfl⟩; exact ⟨rfl, t, rfl⟩

/-- Characterization of the substring search: it finds exactly the
contiguous occurrences. -/
theorem containsSub_eq_true_iff {hay needle : List Char} :
    containsSub hay needle = true ↔ ∃ l₁ l₂, hay = l₁ ++ needle ++ l₂ := by
  induction hay with
  | nil =>
    simp only [containsSub, List.isEmpty_iff]
    constructor
    · rintro rfl; exact ⟨[], [], rfl⟩
    · rintro ⟨l₁, l₂, h⟩
      rcases List.append_eq_nil.mp (List.append_eq_nil.mp h.symm).1 with ⟨-, h₂⟩
      exact h₂
  | cons c t ih =>
    simp only [containsSub, Bool.or_eq_true, isPrefixOf_eq_true_iff, ih]
    constructor
    · rintro (⟨u, hu⟩ | ⟨l₁, l₂, rfl⟩)
      · exact ⟨[], u, by simpa using hu.symm⟩
      · exact ⟨c :: l₁, l₂, rfl⟩
    · rintro ⟨l₁, l₂, h⟩
      cases l₁ with
      | nil => exact Or.inl ⟨l₂, by simpa using h.symm⟩
      | cons x xs =>
        simp only [List.cons_append, List.cons.injEq] at h
        exact Or.inr ⟨xs, l₂, h.2⟩

/-- Anchored run matching, characterized positionally: the string has the
total width and every position satisfies its governing class. -/
theorem matchSegs_eq_true_iff (segs : List (Nat × (Char → Bool))) :
    ∀ cs : List Char, matchSegs segs cs = true ↔
      (cs.length = segLen segs ∧
        ∀ i (h : i < cs.length), segPred segs i (cs.get ⟨i, h⟩) = true) := by
  induction segs with
  | nil =>
    intro cs
    cases cs with
    | nil => simp [matchSegs, segLen]
    | cons a t => simp [matchSegs, segLen]
  | cons seg rest ih =>
    obtain ⟨n, p⟩ := seg
    intro cs
    simp only [matchSegs, Bool.and_eq_true, decide_eq_true_eq, List.all_eq_true, segLen]
    constructor
    · rintro ⟨⟨hn, hall⟩, hrest⟩
      rcases (ih (cs.drop n)).mp hrest with ⟨hlen, hpos⟩
      rw [List.length_drop] at hlen
      refine ⟨by omega, ?_⟩
      intro i h
      simp only [segPred]
      by_cases hi : i < n
      · rw [if_pos hi]
        have hmem : cs.get ⟨i, h⟩ ∈ cs.take n :=
          List.mem_take_iff_getElem.mpr ⟨i, lt_min hi h, rfl⟩
        exact hall _ hmem
      · rw [if_neg hi]
        have hd : i - n < (cs.drop n).length := by
          rw [List.length_drop]; omega
        have := hpos (i - n) hd
        have heq : (cs.drop n).get ⟨i - n, hd⟩ = cs.get ⟨i, h⟩ := by
          simp only [List.get_eq_getElem, List.getElem_drop]
          congr 1
          omega
        rwa [heq] at this
    · rintro ⟨hlen, hpos⟩
      have hn : n ≤ cs.length := by omega
      refine ⟨⟨hn, ?_⟩, ?_⟩
      · intro c hc
        rcases List.mem_take_iff_getElem.mp hc with ⟨i, hi, rfl⟩
        have hi' : i < n := lt_of_lt_of_le hi (min_le_left _ _)
        have hic : i < cs.length := lt_of_lt_of_le hi (min_le_right _ _)
        have := hpos i hic
        simp only [segPred, if_pos hi'] at this
        simpa using this
      · refine (ih (cs.drop n)).mpr ⟨by rw [List.length_drop]; omega, ?_⟩
        intro j hj
        rw [List.length_drop] at hj
        have hnj : n + j < cs.length := by omega
        have := hpos (n + j) hnj
        simp only [segPred, if_neg (by omega : ¬ n + j < n)] at this
        have heq : (cs.drop n).get ⟨j, by rw [List.length_drop]; omega⟩ =
            cs.get ⟨n + j, hnj⟩ := by
          simp [List.getElem_drop]
        rw [heq]
        simpa using this

/-- Position-by-position reading of the UUID segment shape: positions
8, 13, 18 and 23 are governed by the dash literal, every other position
by the hex class. -/
theorem segPred_uuidSegs (i : Nat) (h : i < 36) (c : Char) :
    segPred uuidSegs i c =
      (if i = 8 ∨ i = 13 ∨ i = 18 ∨ i = 23 then dashChar c else hexDigit c) := by
  interval_cases i <;> rfl

/-- Every sextet value is decoded back from its alphabet character. -/
theorem b64value_b64char : ∀ n, n < 64 → b64value (b64char n) = n := by decide

/-- No alphabet character is the padding character. -/
theorem b64char_ne_pad : ∀ n, n < 64 → b64char n ≠ '=' := by decide

/-- Base64 round-trip, by induction on a length bound (`fuel`) so that the
three-byte chunk recursion decreases. -/
theorem b64_roundtrip_aux : ∀ fuel l, l.length ≤ fuel → (∀ x ∈ l, x < 256) →
    b64decodeChars (b64encodeBytes l) = l := by
  intro fuel
  induction fuel with
  | zero =>
    intro l hl _
    have : l = [] := List.length_eq_zero.mp (Nat.le_zero.mp hl)
    subst this
    rfl
  | succ n ih =>
    intro l hl hmem
    match l with
    | [] => rfl
    | [a] =>
      have ha : a < 256 := hmem a (by simp)
      simp only [b64encodeBytes, b64decodeChars]
      rw [if_pos trivial, if_pos trivial, b64value_b64char _ (by omega),
        b64value_b64char _ (by omega)]
      congr 1
      omega
    | [a, b] =>
      have ha : a < 256 := hmem a (by simp)
      have hb : b < 256 := hmem b (by simp)
      have hy : b64char (b % 16 * 4) ≠ '=' := b64char_ne_pad _ (by omega)
      simp only [b64encodeBytes, b64decodeChars]
      rw [if_pos trivial, if_neg hy, b64value_b64char _ (by omega),
        b64value_b64char _ (by omega), b64value_b64char _ (by omega)]
      congr 1
      · omega
      · congr 1
        omega
    | a :: b :: c :: rest =>
      have ha : a < 256 := hmem a (by simp)
      have hb : b < 256 := hmem b (by simp)
      have hc : c < 256 := hmem c (by simp)
      have hz : b64char (c % 64) ≠ '=' := b64char_ne_pad _ (by omega)
      simp only [b64encodeBytes, b64decodeChars]
      rw [if_neg hz, b64value_b64char _ (by omega), b64value_b64char _ (by omega),
        b64value_b64char _ (by omega), b64value_b64char _ (by omega)]
      have hrest : b64decodeChars (b64encodeBytes rest) = rest := by
        apply ih
        · simp at hl; omega
        · intro x hx
          exact hmem x (List.mem_cons_of_mem _ (List.mem_cons_of_mem _ (List.mem_cons_of_mem _ hx)))
      rw [hrest]
      congr 1
      · omega
      · congr 1
        · omega
        · congr 1
          omega

/-- Decoding inverts encoding on any byte list. -/
theorem b64_roundtrip (l : List Nat) (h : ∀ x ∈ l, x < 256) :
    b64decodeChars (b64encodeBytes l) = l :=
  b64_roundtrip_aux l.length l le_rfl h

/-- Claim C1: merging extra specs treats each string-valued override
(zone, service offering, template, SSH key name, project) as tri-state —
present-but-empty leaves the base configured value, present-non-empty
replaces it. -/
theorem mergeExtraSpecs_string_tristate (r : RunnerSpec) (e : ExtraSpecs) :
    ((e.ZoneID = some "" → (MergeExtraSpecs r e).ZoneID = r.ZoneID) ∧
      (∀ v, e.ZoneID = some v → v ≠ "" → (MergeExtraSpecs r e).ZoneID = v)) ∧
    ((e.ServiceOfferingID = some "" → (MergeExtraSpecs r e).ServiceOfferingID = r.ServiceOfferingID) ∧
      (∀ v, e.ServiceOfferingID = some v → v ≠ "" → (MergeExtraSpecs r e).ServiceOfferingID = v)) ∧
    ((e.TemplateID = some "" → (MergeExtraSpecs r e).TemplateID = r.TemplateID) ∧
      (∀ v, e.TemplateID = some v → v ≠ "" → (MergeExtraSpecs r e).TemplateID = v)) ∧
    ((e.SSHKeyName = some "" → (MergeExtraSpecs r e).SSHKeyName = r.SSHKeyName) ∧
      (∀ v, e.SSHKeyName = some v → v ≠ "" → (MergeExtraSpecs r e).SSHKeyName = v)) ∧
    ((e.ProjectID = some "" → (MergeExtraSpecs r e).ProjectID = r.ProjectID) ∧
      (∀ v, e.ProjectID = some v → v ≠ "" → (MergeExtraSpecs r e).ProjectID = v)) := by
  refine ⟨⟨?_, ?_⟩, ⟨?_, ?_⟩, ⟨?_, ?_⟩, ⟨?_, ?_⟩, ⟨?_, ?_⟩⟩
  · intro h; simp [MergeExtraSpecs, h]
  · intro v hv hne; simp [MergeExtraSpecs, hv, hne]
  · intro h; simp [MergeExtraSpecs, h]
  · intro v hv hne; simp [MergeExtraSpecs, hv, hne]
  · intro h; simp [MergeExtraSpecs, h]
  · intro v hv hne; simp [MergeExtraSpecs, hv, hne]
  · intro h; simp [MergeExtraSpecs, h]
  · intro v hv hne; simp [MergeExtraSpecs, hv, hne]
  · intro h; simp [MergeExtraSpecs, h]
  · intro v hv hne; simp [MergeExtraSpecs, hv, hne]

/-- Witness for C1 at a concrete base and override: an empty template
override keeps "T", a non-empty one replaces it with "T2". -/
theorem mergeExtraSpecs_string_tristate_witness :
    (MergeExtraSpecs ⟨"Z", "S", "T", [], "K", "P", false, false, []⟩
      ⟨none, none, some "", [], none, none, none, none, []⟩).TemplateID = "T" ∧
    (MergeExtraSpecs ⟨"Z", "S", "T", [], "K", "P", false, false, []⟩
      ⟨none, none, some "T2", [], none, none, none, none, []⟩).TemplateID = "T2" :=
  ⟨(mergeExtraSpecs_string_tristate ⟨"Z", "S", "T", [], "K", "P", false, false, []⟩
      ⟨none, none, some "", [], none, none, none, none, []⟩).2.2.1.1 rfl,
    (mergeExtraSpecs_string_tristate ⟨"Z", "S", "T", [], "K", "P", false, false, []⟩
      ⟨none, none, some "T2", [], none, none, none, none, []⟩).2.2.1.2 "T2" rfl (by decide)⟩

/-- Counterexample to claim C2: a boolean override that is present with
the value `false` (the "empty value" of its type) does NOT leave the base
value unchanged — `MergeExtraSpecs` applies a boolean override whenever
the pointer is non-nil, regardless of its value. -/
theorem mergeExtraSpecs_bool_false_counterexample :
    (⟨none, none, none, [], none, none, some false, none, []⟩ : ExtraSpecs).DisableUpdates
        = some false ∧
    (⟨"Z", "S", "T", [], "K", "P", true, false, []⟩ : RunnerSpec).DisableUpdates = true ∧
    (MergeExtraSpecs ⟨"Z", "S", "T", [], "K", "P", true, false, []⟩
      ⟨none, none, none, [], none, none, some false, none, []⟩).DisableUpdates
        ≠ (⟨"Z", "S", "T", [], "K", "P", true, false, []⟩ : RunnerSpec).DisableUpdates := by
  refine ⟨rfl, rfl, ?_⟩
  decide

/-- Claim C2 as amended: string overrides are tri-state (absent or
present-empty leaves the base value; present-non-empty replaces it), but
the boolean toggles `disable_updates` and `enable_boot_debug` are applied
whenever present — a present `false` overrides a `true` base. -/
theorem mergeExtraSpecs_scalar_override_rule (r : RunnerSpec) (e : ExtraSpecs) :
    ((e.ZoneID = none ∨ e.ZoneID = some "" → (MergeExtraSpecs r e).ZoneID = r.ZoneID) ∧
      (∀ v, e.ZoneID = some v → v ≠ "" → (MergeExtraSpecs r e).ZoneID = v)) ∧
    ((e.ServiceOfferingID = none ∨ e.ServiceOfferingID = some "" →
        (MergeExtraSpecs r e).ServiceOfferingID = r.ServiceOfferingID) ∧
      (∀ v, e.ServiceOfferingID = some v → v ≠ "" → (MergeExtraSpecs r e).ServiceOfferingID = v)) ∧
    ((e.TemplateID = none ∨ e.TemplateID = some "" →
        (MergeExtraSpecs r e).TemplateID = r.TemplateID) ∧
      (∀ v, e.TemplateID = some v → v ≠ "" → (MergeExtraSpecs r e).TemplateID = v)) ∧
    ((e.SSHKeyName = none ∨ e.SSHKeyName = some "" →
        (MergeExtraSpecs r e).SSHKeyName = r.SSHKeyName) ∧
      (∀ v, e.SSHKeyName = some v → v ≠ "" → (MergeExtraSpecs r e).SSHKeyName = v)) ∧
    ((e.ProjectID = none ∨ e.ProjectID = some "" →
        (MergeExtraSpecs r e).ProjectID = r.ProjectID) ∧
      (∀ v, e.ProjectID = some v → v ≠ "" → (MergeExtraSpecs r e).ProjectID = v)) ∧
    ((e.DisableUpdates = none → (MergeExtraSpecs r e).DisableUpdates = r.DisableUpdates) ∧
      (∀ b, e.DisableUpdates = some b → (MergeExtraSpecs r e).DisableUpdates = b)) ∧
    ((e.EnableBootDebug = none → (MergeExtraSpecs r e).EnableBootDebug = r.EnableBootDebug) ∧
      (∀ b, e.EnableBootDebug = some b → (MergeExtraSpecs r e).EnableBootDebug = b)) := by
  refine ⟨⟨?_, ?_⟩, ⟨?_, ?_⟩, ⟨?_, ?_⟩, ⟨?_, ?_⟩, ⟨?_, ?_⟩, ⟨?_, ?_⟩, ⟨?_, ?_⟩⟩
  · rintro (h | h) <;> simp [MergeExtraSpecs, h]
  · intro v hv hne; simp [MergeExtraSpecs, hv, hne]
  · rintro (h | h) <;> simp [MergeExtraSpecs, h]
  · intro v hv hne; simp [MergeExtraSpecs, hv, hne]
  · rintro (h | h) <;> simp [MergeExtraSpecs, h]
  · intro v hv hne; simp [MergeExtraSpecs, hv, hne]
  · rintro (h | h) <;> simp [MergeExtraSpecs, h]
  · intro v hv hne; simp [MergeExtraSpecs, hv, hne]
  · rintro (h | h) <;> simp [MergeExtraSpecs, h]
  · intro v hv hne; simp [MergeExtraSpecs, hv, hne]
  · intro h; simp [MergeExtraSpecs, h]
  · intro b hb; simp [MergeExtraSpecs, hb]
  · intro h; simp [MergeExtraSpecs, h]
  · intro b hb; simp [MergeExtraSpecs, hb]

/-- Witness for the amended C2 at concrete inputs: an absent string
override keeps the base, a present `false` boolean override replaces a
`true` base. -/
theorem mergeExtraSpecs_scalar_override_rule_witness :
    (MergeExtraSpecs ⟨"Z", "S", "T", [], "K", "P", true, false, []⟩
      ⟨none, none, none, [], none, none, some false, none, []⟩).ZoneID = "Z" ∧
    (MergeExtraSpecs ⟨"Z", "S", "T", [], "K", "P", true, false, []⟩
      ⟨none, none, none, [], none, none, some false, none, []⟩).DisableUpdates = false :=
  ⟨(mergeExtraSpecs_scalar_override_rule ⟨"Z", "S", "T", [], "K", "P", true, false, []⟩
      ⟨none, none, none, [], none, none, some false, none, []⟩).1.1 (Or.inl rfl),
    (mergeExtraSpecs_scalar_override_rule ⟨"Z", "S", "T", [], "K", "P", true, false, []⟩
      ⟨none, none, none, [], none, none, some false, none, []⟩).2.2.2.2.2.1.2 false rfl⟩

/-- Claim C3: boot-payload round-trip.  A rendered payload strictly
shorter than 16384 bytes is base64-encoded unmodified, so decoding
recovers it exactly with no compression step; a payload of 16384 bytes or
more is first compressed — with the single-entry `udata` zip writer when
the target OS is Windows, with the gzip stream writer for every other OS —
and then base64-encoded, so the OS-appropriate decompressor applied to
the decoded bytes recovers the payload (given the stdlib compressors'
round-trip contract as hypotheses). -/
theorem composeUserData_roundtrip (lib : CompressionLib)
    (gunzip unzipUdata : List Nat → List Nat) (udata : List Nat) (targetOS : String)
    (hbytes : ∀ x ∈ udata, x < 256) :
    (udata.length < 16384 →
      composeRenderedUserData lib udata targetOS = b64encodeBytes udata ∧
        b64decodeChars (composeRenderedUserData lib udata targetOS) = udata) ∧
    (16384 ≤ udata.length → targetOS = "windows" →
      (∀ x ∈ lib.zipCompressUdata udata, x < 256) →
      unzipUdata (lib.zipCompressUdata udata) = udata →
      unzipUdata (b64decodeChars (composeRenderedUserData lib udata targetOS)) = udata) ∧
    (16384 ≤ udata.length → targetOS ≠ "windows" →
      (∀ x ∈ lib.gzipCompress udata, x < 256) →
      gunzip (lib.gzipCompress udata) = udata →
      gunzip (b64decodeChars (composeRenderedUserData lib udata targetOS)) = udata) := by
  refine ⟨?_, ?_, ?_⟩
  · intro hlen
    have hplain : composeRenderedUserData lib udata targetOS = b64encodeBytes udata := by
      simp [composeRenderedUserData, maybeCompressUserdata, hlen]
    exact ⟨hplain, by rw [hplain, b64_roundtrip _ hbytes]⟩
  · intro hlen hwin hzb hzrt
    have hnl : ¬ udata.length < 16384 := by omega
    have hcomp : composeRenderedUserData lib udata targetOS =
        b64encodeBytes (lib.zipCompressUdata udata) := by
      simp [composeRenderedUserData, maybeCompressUserdata, hnl, hwin]
    rw [hcomp, b64_roundtrip _ hzb, hzrt]
  · intro hlen hwin hgb hgrt
    have hnl : ¬ udata.length < 16384 := by omega
    have hcomp : composeRenderedUserData lib udata targetOS =
        b64encodeBytes (lib.gzipCompress udata) := by
      simp [composeRenderedUserData, maybeCompressUserdata, hnl, hwin]
    rw [hcomp, b64_roundtrip _ hgb, hgrt]

/-- Witness for C3: with the identity taken as the compressor model, the
short branch round-trips a concrete 3-byte payload and both long branches
round-trip a concrete 16384-byte payload. -/
theorem composeUserData_roundtrip_witness :
    b64decodeChars (composeRenderedUserData ⟨fun l => l, fun l => l⟩ [1, 2, 3] "linux")
        = [1, 2, 3] ∧
    id (b64decodeChars (composeRenderedUserData ⟨fun l => l, fun l => l⟩
        (List.replicate 16384 65) "windows")) = List.replicate 16384 65 ∧
    id (b64decodeChars (composeRenderedUserData ⟨fun l => l, fun l => l⟩
        (List.replicate 16384 65) "linux")) = List.replicate 16384 65 := by
  have hb : ∀ x ∈ List.replicate 16384 65, x < 256 := by
    intro x hx
    rcases List.eq_of_mem_replicate hx with rfl
    omega
  refine ⟨?_, ?_, ?_⟩
  · exact ((composeUserData_roundtrip ⟨fun l => l, fun l => l⟩ id id [1, 2, 3] "linux"
      (by decide)).1 (by decide)).2
  · exact (composeUserData_roundtrip ⟨fun l => l, fun l => l⟩ id id
      (List.replicate 16384 65) "windows" hb).2.1
      (by simp only [List.length_replicate]; omega) rfl hb rfl
  · exact (composeUserData_roundtrip ⟨fun l => l, fun l => l⟩ id id
      (List.replicate 16384 65) "linux" hb).2.2
      (by simp only [List.length_replicate]; omega) (by decide) hb rfl

/-- Claim C4: for every VM record with a non-empty ID the conversion
succeeds and the canonical status is the case-insensitive classification
of the raw platform state given by the spec's table (`statusSpecTable`):
running/starting/migrating/restoring/stopping map to Running,
stopped/shutdown/destroyed/expunging map to Stopped, anything else to
Unknown. -/
theorem instance_state_classification (vm : VirtualMachine) (h : vm.Id ≠ "") :
    ∃ inst, CloudStackInstanceToParamsInstance vm = .ok inst ∧
      inst.Status = statusSpecTable vm.State := by
  simp only [CloudStackInstanceToParamsInstance, if_neg h]
  refine ⟨_, rfl, ?_⟩
  simp only [statusSpecTable, List.mem_cons, List.not_mem_nil, or_false]

/-- Witness for C4 at a concrete VM in raw state "RUNNING". -/
theorem instance_state_classification_witness :
    (∃ inst, CloudStackInstanceToParamsInstance ⟨"vm-1", "web", "RUNNING", []⟩ = .ok inst ∧
      inst.Status = statusSpecTable "RUNNING") ∧ statusSpecTable "RUNNING" = "running" :=
  ⟨instance_state_classification ⟨"vm-1", "web", "RUNNING", []⟩ (by decide), by decide⟩

/-- Claim C5: `isUUID` returns true exactly on the canonical 36-character
`8-4-4-4-12` form (either letter case): length 36, a hyphen at positions
8, 13, 18 and 23, and a hex digit everywhere else — so any length or
separator deviation yields false. -/
theorem isUUID_canonical_iff (s : String) :
    isUUID s = true ↔
      (s.data.length = 36 ∧
        ∀ i (h : i < s.data.length),
          if i = 8 ∨ i = 13 ∨ i = 18 ∨ i = 23
          then s.data.get ⟨i, h⟩ = '-'
          else hexDigit (s.data.get ⟨i, h⟩) = true) := by
  rw [isUUID, matchSegs_eq_true_iff]
  have hlen : segLen uuidSegs = 36 := rfl
  rw [hlen]
  constructor
  · rintro ⟨h36, hpos⟩
    refine ⟨h36, ?_⟩
    intro i h
    have hi36 : i < 36 := by omega
    have := hpos i h
    rw [segPred_uuidSegs i hi36] at this
    by_cases hc : i = 8 ∨ i = 13 ∨ i = 18 ∨ i = 23
    · rw [if_pos hc] at this ⊢
      simpa [dashChar] using this
    · rw [if_neg hc] at this ⊢
      exact this
  · rintro ⟨h36, hpos⟩
    refine ⟨h36, ?_⟩
    intro i h
    have hi36 : i < 36 := by omega
    have := hpos i h
    rw [segPred_uuidSegs i hi36]
    by_cases hc : i = 8 ∨ i = 13 ∨ i = 18 ∨ i = 23
    · rw [if_pos hc] at this ⊢
      simpa [dashChar] using this
    · rw [if_neg hc] at this ⊢
      exact this

/-- Witness for C5: a canonical UUID is accepted (through the
characterization), and deviations in length or separators are rejected. -/
theorem isUUID_canonical_iff_witness :
    isUUID "550e8400-e29b-41d4-a716-446655440000" = true ∧
    isUUID "550e8400-e29b-41d4-a716-44665544000" = false ∧
    isUUID "550e8400ae29ba41d4aa716a446655440000" = false :=
  ⟨(isUUID_canonical_iff "550e8400-e29b-41d4-a716-446655440000").mpr (by decide),
    by decide, by decide⟩

/-- Claim C6: stop and destroy absorb a not-found condition — whether the
lookup reports it or the platform stop/destroy call itself returns a "no
such entity" error — and return success; start propagates a failed lookup
unchanged. -/
theorem stop_destroy_absorb_notfound (api : CsApi) (identifier : String) (force : Bool) :
    (∀ e, FindOneInstance api "" identifier = .error e → e.notFound = true →
      StopInstance api identifier force = .ok () ∧
        DestroyInstance api identifier = .ok ()) ∧
    (∀ vm e, FindOneInstance api "" identifier = .ok vm →
      api.stopVM vm.Id force = .error e → IsCloudStackNotFoundErr (some e) = true →
      StopInstance api identifier force = .ok ()) ∧
    (∀ vm e, FindOneInstance api "" identifier = .ok vm →
      api.destroyVM vm.Id = .error e → IsCloudStackNotFoundErr (some e) = true →
      DestroyInstance api identifier = .ok ()) ∧
    (∀ e, FindOneInstance api "" identifier = .error e →
      StartInstance api identifier = .error e) := by
  refine ⟨?_, ?_, ?_, ?_⟩
  · intro e hf hnf
    constructor <;> simp [StopInstance, DestroyInstance, hf, hnf]
  · intro vm e hf hs hn
    simp [StopInstance, hf, hs, hn]
  · intro vm e hf hd hn
    simp [DestroyInstance, hf, hd, hn]
  · intro e hf
    simp [StartInstance, hf]

/-- Witness for C6: a UUID identifier that the platform does not know —
stop and destroy succeed, start fails; and a stop whose platform call
itself reports "No match found for ..." also succeeds. -/
theorem stop_destroy_absorb_notfound_witness :
    StopInstance ⟨fun _ => .ok [], fun _ _ => .ok [], fun _ => .ok (), fun _ _ => .ok (),
        fun _ => .ok ()⟩ "550e8400-e29b-41d4-a716-446655440000" true = .ok () ∧
    DestroyInstance ⟨fun _ => .ok [], fun _ _ => .ok [], fun _ => .ok (), fun _ _ => .ok (),
        fun _ => .ok ()⟩ "550e8400-e29b-41d4-a716-446655440000" = .ok () ∧
    StartInstance ⟨fun _ => .ok [], fun _ _ => .ok [], fun _ => .ok (), fun _ _ => .ok (),
        fun _ => .ok ()⟩ "550e8400-e29b-41d4-a716-446655440000"
      = .error (notFoundErr "no such instance 550e8400-e29b-41d4-a716-446655440000") ∧
    StopInstance ⟨fun _ => .ok [⟨"vm-1", "web", "Running", []⟩], fun _ _ => .ok [],
        fun _ => .ok (), fun _ _ => .error (plainErr "No match found for vm-1"),
        fun _ => .ok ()⟩ "550e8400-e29b-41d4-a716-446655440000" false = .ok () := by
  refine ⟨?_, ?_, ?_, ?_⟩
  · exact ((stop_destroy_absorb_notfound
      ⟨fun _ => .ok [], fun _ _ => .ok [], fun _ => .ok (), fun _ _ => .ok (), fun _ => .ok ()⟩
      "550e8400-e29b-41d4-a716-446655440000" true).1
      (notFoundErr "no such instance 550e8400-e29b-41d4-a716-446655440000") rfl rfl).1
  · exact ((stop_destroy_absorb_notfound
      ⟨fun _ => .ok [], fun _ _ => .ok [], fun _ => .ok (), fun _ _ => .ok (), fun _ => .ok ()⟩
      "550e8400-e29b-41d4-a716-446655440000" true).1
      (notFoundErr "no such instance 550e8400-e29b-41d4-a716-446655440000") rfl rfl).2
  · exact (stop_destroy_absorb_notfound
      ⟨fun _ => .ok [], fun _ _ => .ok [], fun _ => .ok (), fun _ _ => .ok (), fun _ => .ok ()⟩
      "550e8400-e29b-41d4-a716-446655440000" true).2.2.2
      (notFoundErr "no such instance 550e8400-e29b-41d4-a716-446655440000") rfl
  · exact (stop_destroy_absorb_notfound
      ⟨fun _ => .ok [⟨"vm-1", "web", "Running", []⟩], fun _ _ => .ok [],
        fun _ => .ok (), fun _ _ => .error (plainErr "No match found for vm-1"),
        fun _ => .ok ()⟩
      "550e8400-e29b-41d4-a716-446655440000" false).2.1
      ⟨"vm-1", "web", "Running", []⟩ (plainErr "No match found for vm-1") rfl rfl rfl

/-- Claim C7: destroying a nonexistent identifier succeeds with no error,
while destroying by a name that matches more than one VM (with no
controller-tag filter) fails with the ambiguous-match error for every
possible behaviour of the platform destroy call — the destructive call is
never what produces the outcome. -/
theorem destroy_nonexistent_and_ambiguous (api : CsApi) (identifier name : String) :
    (strTrim identifier ≠ "" → csIsID identifier = true → api.listById identifier = .ok [] →
      DestroyInstance api identifier = .ok ()) ∧
    (∀ vm1 vm2 rest, strTrim name ≠ "" → csIsID name = false →
      api.listByName name none = .ok (vm1 :: vm2 :: rest) →
      ∀ g, DestroyInstance { api with destroyVM := g } name =
        .error (plainErr ("found more than one instance with name " ++ name))) := by
  constructor
  · intro htrim hid hlist
    have hf : FindOneInstance api "" identifier =
        .error (notFoundErr ("no such instance " ++ identifier)) := by
      simp [FindOneInstance, htrim, hid, hlist]
    simp [DestroyInstance, hf, notFoundErr]
  · intro vm1 vm2 rest htrim hid hlist g
    have hf : FindOneInstance { api with destroyVM := g } "" name =
        .error (plainErr ("found more than one instance with name " ++ name)) := by
      simp [FindOneInstance, htrim, hid, hlist]
    simp [DestroyInstance, hf, plainErr]

/-- Witness for C7: a concrete unknown UUID destroys successfully; a
concrete duplicated name yields the ambiguous error whatever the destroy
call would have done. -/
theorem destroy_nonexistent_and_ambiguous_witness :
    DestroyInstance ⟨fun _ => .ok [], fun _ _ => .ok [], fun _ => .ok (), fun _ _ => .ok (),
        fun _ => .ok ()⟩ "550e8400-e29b-41d4-a716-446655440000" = .ok () ∧
    DestroyInstance ⟨fun _ => .ok [],
        fun _ _ => .ok [⟨"vm-1", "web", "Running", []⟩, ⟨"vm-2", "web", "Running", []⟩],
        fun _ => .ok (), fun _ _ => .ok (), fun _ => .error (plainErr "boom")⟩ "web"
      = .error (plainErr "found more than one instance with name web") := by
  constructor
  · exact (destroy_nonexistent_and_ambiguous
      ⟨fun _ => .ok [], fun _ _ => .ok [], fun _ => .ok (), fun _ _ => .ok (), fun _ => .ok ()⟩
      "550e8400-e29b-41d4-a716-446655440000" "x").1 (by decide) (by decide) rfl
  · exact (destroy_nonexistent_and_ambiguous
      ⟨fun _ => .ok [],
        fun _ _ => .ok [⟨"vm-1", "web", "Running", []⟩, ⟨"vm-2", "web", "Running", []⟩],
        fun _ => .ok (), fun _ _ => .ok (), fun _ => .ok ()⟩ "x" "web").2
      ⟨"vm-1", "web", "Running", []⟩ ⟨"vm-2", "web", "Running", []⟩ []
      (by decide) (by decide) rfl (fun _ => .error (plainErr "boom"))

/-- Counterexample to claim C9: the provider's get-instance lookup does
NOT propagate a not-found condition as an error — at a concrete unknown
identifier it returns success with the zero-value instance record. -/
theorem getInstance_notfound_counterexample :
    GetInstance ⟨fun _ => .ok [], fun _ _ => .ok [], fun _ => .ok (), fun _ _ => .ok (),
        fun _ => .ok ()⟩ "controller-1" "550e8400-e29b-41d4-a716-446655440000"
      = .ok emptyProviderInstance := rfl

/-- Claim C9 as amended: stop and destroy absorb a not-found lookup into
success, and the provider's get-instance also absorbs it — returning
success with the zero-value instance record — while start propagates the
not-found lookup failure as an error. -/
theorem notfound_absorption_scope (api : CsApi) (controllerID identifier : String)
    (force : Bool) :
    (∀ e, FindOneInstance api controllerID identifier = .error e → e.notFound = true →
      GetInstance api controllerID identifier = .ok emptyProviderInstance) ∧
    (∀ e, FindOneInstance api "" identifier = .error e → e.notFound = true →
      StopInstance api identifier force = .ok () ∧
        DestroyInstance api identifier = .ok () ∧
        StartInstance api identifier = .error e) := by
  constructor
  · intro e hf hnf
    simp [GetInstance, hf, hnf]
  · intro e hf hnf
    refine ⟨?_, ?_, ?_⟩ <;> simp [StopInstance, DestroyInstance, StartInstance, hf, hnf]

/-- Witness for the amended C9 at a concrete unknown identifier. -/
theorem notfound_absorption_scope_witness :
    GetInstance ⟨fun _ => .ok [], fun _ _ => .ok [], fun _ => .ok (), fun _ _ => .ok (),
        fun _ => .ok ()⟩ "c1" "550e8400-e29b-41d4-a716-446655440000"
      = .ok emptyProviderInstance ∧
    StartInstance ⟨fun _ => .ok [], fun _ _ => .ok [], fun _ => .ok (), fun _ _ => .ok (),
        fun _ => .ok ()⟩ "550e8400-e29b-41d4-a716-446655440000"
      = .error (notFoundErr "no such instance 550e8400-e29b-41d4-a716-446655440000") :=
  ⟨(notfound_absorption_scope
      ⟨fun _ => .ok [], fun _ _ => .ok [], fun _ => .ok (), fun _ _ => .ok (), fun _ => .ok ()⟩
      "c1" "550e8400-e29b-41d4-a716-446655440000" true).1
      (notFoundErr "no such instance 550e8400-e29b-41d4-a716-446655440000") rfl rfl,
    ((notfound_absorption_scope
      ⟨fun _ => .ok [], fun _ _ => .ok [], fun _ => .ok (), fun _ _ => .ok (), fun _ => .ok ()⟩
      "c1" "550e8400-e29b-41d4-a716-446655440000" true).2
      (notFoundErr "no such instance 550e8400-e29b-41d4-a716-446655440000") rfl rfl).2.2⟩

/-- Claim C10: the not-found classifier is false on `nil` and on the
async-timeout sentinel, and otherwise true exactly when the lowercased
message contains "no match found for" or "entity does not exist" (stated
with the substring relation); consequently a stop or destroy whose
platform call reports a timeout is an error, never an absorbed success. -/
theorem isCloudStackNotFoundErr_characterization (e : GoErr) (api : CsApi)
    (identifier : String) (force : Bool) :
    IsCloudStackNotFoundErr none = false ∧
    (e.asyncTimeout = true → IsCloudStackNotFoundErr (some e) = false) ∧
    (e.asyncTimeout = false →
      (IsCloudStackNotFoundErr (some e) = true ↔
        (∃ l₁ l₂, (strToLower e.msg).data = l₁ ++ "no match found for".data ++ l₂) ∨
          (∃ l₁ l₂, (strToLower e.msg).data = l₁ ++ "entity does not exist".data ++ l₂))) ∧
    (∀ vm, FindOneInstance api "" identifier = .ok vm → e.asyncTimeout = true →
      (api.stopVM vm.Id force = .error e →
        StopInstance api identifier force = .error (wrapErr "failed to stop instance" e)) ∧
      (api.destroyVM vm.Id = .error e →
        DestroyInstance api identifier = .error (wrapErr "failed to destroy instance" e))) := by
  refine ⟨rfl, ?_, ?_, ?_⟩
  · intro h
    simp [IsCloudStackNotFoundErr, h]
  · intro h
    simp [IsCloudStackNotFoundErr, h, strContains, containsSub_eq_true_iff]
  · intro vm hf ht
    have hn : IsCloudStackNotFoundErr (some e) = false := by
      simp [IsCloudStackNotFoundErr, ht]
    constructor
    · intro hs
      simp [StopInstance, hf, hs, hn]
    · intro hd
      simp [DestroyInstance, hf, hd, hn]

/-- Witness for C10: the async-timeout error is not classified as
not-found even though stop fails with it; a plain "No match found for"
message is classified as not-found. -/
theorem isCloudStackNotFoundErr_characterization_witness :
    IsCloudStackNotFoundErr (some ⟨"Timeout while waiting for async job to finish", false, true⟩)
      = false ∧
    StopInstance ⟨fun _ => .ok [⟨"vm-1", "web", "Running", []⟩], fun _ _ => .ok [],
        fun _ => .ok (),
        fun _ _ => .error ⟨"Timeout while waiting for async job to finish", false, true⟩,
        fun _ => .ok ()⟩ "550e8400-e29b-41d4-a716-446655440000" false
      = .error (wrapErr "failed to stop instance"
          ⟨"Timeout while waiting for async job to finish", false, true⟩) ∧
    IsCloudStackNotFoundErr (some (plainErr "No match found for vm-1")) = true := by
  refine ⟨?_, ?_, ?_⟩
  · exact (isCloudStackNotFoundErr_characterization
      ⟨"Timeout while waiting for async job to finish", false, true⟩
      ⟨fun _ => .ok [], fun _ _ => .ok [], fun _ => .ok (), fun _ _ => .ok (), fun _ => .ok ()⟩
      "x" false).2.1 rfl
  · exact ((isCloudStackNotFoundErr_characterization
      ⟨"Timeout while waiting for async job to finish", false, true⟩
      ⟨fun _ => .ok [⟨"vm-1", "web", "Running", []⟩], fun _ _ => .ok [],
        fun _ => .ok (),
        fun _ _ => .error ⟨"Timeout while waiting for async job to finish", false, true⟩,
        fun _ => .ok ()⟩
      "550e8400-e29b-41d4-a716-446655440000" false).2.2.2
      ⟨"vm-1", "web", "Running", []⟩ rfl rfl).1 rfl
  · exact (isCloudStackNotFoundErr_characterization (plainErr "No match found for vm-1")
      ⟨fun _ => .ok [], fun _ _ => .ok [], fun _ => .ok (), fun _ _ => .ok (), fun _ => .ok ()⟩
      "x" false).2.2.1 rfl |>.mpr
      (Or.inl ⟨[], " vm-1".data, by decide⟩)

/-- Claim C8: during name resolution (with zone and service offering
already opaque IDs, a configured non-UUID project name and a non-UUID
template name), a project lookup with more than one match fails with the
"multiple projects found" error and zero matches fails with "not found";
a template lookup with zero matches fails with "not found", but more
than one match does not fail — the first template in the platform's
returned order is selected. -/
theorem resolveNames_project_template_multiplicity (api : ResolveApi) (c : CsConfig)
    (hz : isUUID c.Zone = true) (hso : isUUID c.ServiceOffering = true)
    (hp : c.Project ≠ "") (hpu : isUUID c.Project = false)
    (htu : isUUID c.Template = false) :
    (∀ p q rest, api.listProjects c.Project = .ok (p :: q :: rest) →
      resolveNames api c =
        .error (plainErr ("multiple projects found matching \"" ++ c.Project ++ "\""))) ∧
    (api.listProjects c.Project = .ok [] →
      resolveNames api c = .error (plainErr ("project \"" ++ c.Project ++ "\" not found"))) ∧
    (∀ p, api.listProjects c.Project = .ok [p] → p.Id ≠ "" →
      (api.listTemplates c.Template c.Zone (some p.Id) = .ok [] →
        resolveNames api c =
          .error (plainErr ("template \"" ++ c.Template ++ "\" not found"))) ∧
      (∀ t ts, api.listTemplates c.Template c.Zone (some p.Id) = .ok (t :: ts) →
        resolveNames api c = .ok ⟨c.Zone, c.ServiceOffering, t.Id, p.Id⟩)) := by
  refine ⟨?_, ?_, ?_⟩
  · intro p q rest hl
    simp [resolveNames, hz, hso, hp, hpu, hl, Bind.bind, Except.bind, pure, Except.pure]
  · intro hl
    simp [resolveNames, hz, hso, hp, hpu, hl, Bind.bind, Except.bind, pure, Except.pure]
  · intro p hl hpid
    constructor
    · intro ht
      simp [resolveNames, hz, hso, hp, hpu, htu, hl, hpid, ht, Bind.bind, Except.bind,
        pure, Except.pure]
    · intro t ts ht
      simp [resolveNames, hz, hso, hp, hpu, htu, hl, hpid, ht, Bind.bind, Except.bind,
        pure, Except.pure]

/-- Witness for C8 at concrete lookups: two matching projects produce the
ambiguity error; with a single project, two matching templates resolve to
the first one. -/
theorem resolveNames_project_template_multiplicity_witness :
    resolveNames ⟨fun _ => .ok ⟨"z1"⟩, fun _ => .ok ⟨"s1"⟩, fun _ => .ok [⟨"p1"⟩, ⟨"p2"⟩],
        fun _ _ _ => .ok [⟨"t1"⟩, ⟨"t2"⟩]⟩
        ⟨"550e8400-e29b-41d4-a716-446655440000", "650e8400-e29b-41d4-a716-446655440000",
          "tmpl", "proj"⟩
      = .error (plainErr "multiple projects found matching \"proj\"") ∧
    resolveNames ⟨fun _ => .ok ⟨"z1"⟩, fun _ => .ok ⟨"s1"⟩, fun _ => .ok [⟨"p1"⟩],
        fun _ _ _ => .ok [⟨"t1"⟩, ⟨"t2"⟩]⟩
        ⟨"550e8400-e29b-41d4-a716-446655440000", "650e8400-e29b-41d4-a716-446655440000",
          "tmpl", "proj"⟩
      = .ok ⟨"550e8400-e29b-41d4-a716-446655440000", "650e8400-e29b-41d4-a716-446655440000",
          "t1", "p1"⟩ := by
  constructor
  · exact (resolveNames_project_template_multiplicity
      ⟨fun _ => .ok ⟨"z1"⟩, fun _ => .ok ⟨"s1"⟩, fun _ => .ok [⟨"p1"⟩, ⟨"p2"⟩],
        fun _ _ _ => .ok [⟨"t1"⟩, ⟨"t2"⟩]⟩
      ⟨"550e8400-e29b-41d4-a716-446655440000", "650e8400-e29b-41d4-a716-446655440000",
        "tmpl", "proj"⟩
      (by decide) (by decide) (by decide) (by decide) (by decide)).1 ⟨"p1"⟩ ⟨"p2"⟩ [] rfl
  · exact ((resolveNames_project_template_multiplicity
      ⟨fun _ => .ok ⟨"z1"⟩, fun _ => .ok ⟨"s1"⟩, fun _ => .ok [⟨"p1"⟩],
        fun _ _ _ => .ok [⟨"t1"⟩, ⟨"t2"⟩]⟩
      ⟨"550e8400-e29b-41d4-a716-446655440000", "650e8400-e29b-41d4-a716-446655440000",
        "tmpl", "proj"⟩
      (by decide) (by decide) (by decide) (by decide) (by decide)).2.2 ⟨"p1"⟩ rfl
      (by decide)).2 ⟨"t1"⟩ [⟨"t2"⟩] rfl
